import Mathlib

/-!
Verification of the longcut transcription pipeline.

Shallow embedding of:
- the credit-ledger stored procedures from
  `supabase/migrations/20260111120000_ai_transcription_feature.sql`
  (`get_transcription_usage_in_period`, `consume_transcription_minutes_atomically`,
   `refund_transcription_minutes`, `add_transcription_topup_credits`);
- the job orchestrator `POST /api/transcribe/process` and its `handleJobFailure`
  from `app/api/transcribe/process/route.ts`;
- the Gemini speech-to-text client's transfer-strategy choice and model
  cascade from `lib/gemini-transcription-client.ts`.

User ids, job ids and timestamps are modelled as `Nat`; Stripe payment-intent
ids and subscription tiers as `String`; minute quantities as `Nat` (the SQL
columns carry CHECK constraints keeping them non-negative, and
`GREATEST(0, a - b)` coincides with truncated `Nat` subtraction).
-/

namespace Longcut

/-! ## Ledger data model (tables from the migration) -/

/-- `transcription_usage.source` column: CHECK (source IN ('subscription', 'topup')). -/
inductive UsageSource where
  | subscription
  | topup
deriving DecidableEq, Repr

/-- One row of `transcription_usage`. -/
structure UsageRow where
  userId : Nat
  jobId : Nat
  minutesUsed : Nat
  source : UsageSource
  periodStart : Option Nat
  periodEnd : Option Nat
deriving DecidableEq, Repr

/-- The columns of `profiles` the ledger reads and writes:
`subscription_tier` and `transcription_minutes_topup`. -/
structure Profile where
  subscriptionTier : String
  transcriptionMinutesTopup : Nat
deriving DecidableEq, Repr

/-- One row of `transcription_topup_purchases`. -/
structure TopupPurchase where
  userId : Nat
  stripePaymentIntentId : String
  minutesPurchased : Nat
  amountPaid : Nat
deriving DecidableEq, Repr

/-- The datastore state the ledger functions touch: the `profiles` rows
(keyed by user id), the `transcription_usage` rows, and the
`transcription_topup_purchases` rows. -/
structure LedgerState where
  profiles : List (Nat × Profile)
  usage : List UsageRow
  purchases : List TopupPurchase
deriving DecidableEq, Repr

/-- `SELECT ... FROM profiles WHERE id = uid`. -/
def lookupProfile (ps : List (Nat × Profile)) (uid : Nat) : Option Profile :=
  (ps.find? (fun e => e.1 == uid)).map (·.2)

/-- `UPDATE profiles SET transcription_minutes_topup = f(...) WHERE id = uid`. -/
def updateProfileTopup (ps : List (Nat × Profile)) (uid : Nat) (f : Nat → Nat) :
    List (Nat × Profile) :=
  ps.map (fun e =>
    if e.1 == uid then
      (e.1, { e.2 with transcriptionMinutesTopup := f e.2.transcriptionMinutesTopup })
    else e)

/-- Sum of `minutes_used` over a list of usage rows. -/
def minutesSum (rows : List UsageRow) : Nat :=
  (rows.map (·.minutesUsed)).sum

/-- SQL `get_transcription_usage_in_period`: sum of `minutes_used` over
`transcription_usage` rows with the given user, `source = 'subscription'`, and
period bounds equal to the given (non-null) bounds. -/
def get_transcription_usage_in_period (st : LedgerState) (uid ps pe : Nat) : Nat :=
  minutesSum (st.usage.filter (fun r =>
    r.userId == uid && r.source == UsageSource.subscription
      && r.periodStart == some ps && r.periodEnd == some pe))

/-- The fields of the jsonb returned by `consume_transcription_minutes_atomically`
that the claims mention. The denied branches return zero minute splits. -/
structure ConsumeResult where
  allowed : Bool
  reason : String
  minutesFromSubscription : Nat
  minutesFromTopup : Nat
deriving DecidableEq, Repr

/-- SQL `consume_transcription_minutes_atomically(p_user_id, p_job_id, p_minutes,
p_subscription_limit, p_period_start, p_period_end)`: locks the profile row,
computes the subscription remainder for the period, splits consumption between
the subscription bucket and the top-up balance, inserting `transcription_usage`
rows and decrementing the top-up balance; consumes nothing when the total
available is short. -/
def consume_transcription_minutes_atomically (st : LedgerState)
    (uid jid m subLimit ps pe : Nat) : ConsumeResult × LedgerState :=
  match lookupProfile st.profiles uid with
  | none =>
      ({ allowed := false, reason := "NO_PROFILE",
         minutesFromSubscription := 0, minutesFromTopup := 0 }, st)
  | some prof =>
      if prof.subscriptionTier ≠ "pro" then
        ({ allowed := false, reason := "NOT_PRO",
           minutesFromSubscription := 0, minutesFromTopup := 0 }, st)
      else
        let used := get_transcription_usage_in_period st uid ps pe
        let subRemaining := subLimit - used
        let topup := prof.transcriptionMinutesTopup
        if subRemaining ≥ m then
          let newRows :=
            if 0 < m then
              [UsageRow.mk uid jid m UsageSource.subscription (some ps) (some pe)]
            else []
          ({ allowed := true, reason := "OK",
             minutesFromSubscription := m, minutesFromTopup := 0 },
           { st with usage := st.usage ++ newRows })
        else if subRemaining + topup ≥ m then
          let fromSub := subRemaining
          let fromTop := m - subRemaining
          let subRows :=
            if 0 < fromSub then
              [UsageRow.mk uid jid fromSub UsageSource.subscription (some ps) (some pe)]
            else []
          let topRows :=
            if 0 < fromTop then
              [UsageRow.mk uid jid fromTop UsageSource.topup (some ps) (some pe)]
            else []
          let profiles' :=
            if 0 < fromTop then
              updateProfileTopup st.profiles uid (fun b => b - fromTop)
            else st.profiles
          ({ allowed := true, reason := "OK",
             minutesFromSubscription := fromSub, minutesFromTopup := fromTop },
           { st with usage := st.usage ++ subRows ++ topRows, profiles := profiles' })
        else
          ({ allowed := false, reason := "INSUFFICIENT_CREDITS",
             minutesFromSubscription := 0, minutesFromTopup := 0 }, st)

/-- Result of `refund_transcription_minutes`. -/
structure RefundResult where
  success : Bool
  minutesRefunded : Nat
deriving DecidableEq, Repr

/-- SQL `refund_transcription_minutes(p_job_id)`: loops over the job's
usage rows crediting top-up-sourced minutes back to the profile balance
(subscription-sourced rows restore nothing), then deletes all usage rows
for the job. -/
def refund_transcription_minutes (st : LedgerState) (jid : Nat) :
    RefundResult × LedgerState :=
  let rows := st.usage.filter (fun r => r.jobId == jid)
  let profiles' := rows.foldl
    (fun ps r =>
      if r.source == UsageSource.topup then
        updateProfileTopup ps r.userId (fun b => b + r.minutesUsed)
      else ps)
    st.profiles
  ({ success := true, minutesRefunded := minutesSum rows },
   { st with profiles := profiles',
             usage := st.usage.filter (fun r => !(r.jobId == jid)) })

/-- Result of `add_transcription_topup_credits`. -/
structure TopupCreditResult where
  success : Bool
  alreadyProcessed : Bool
  newBalance : Option Nat
deriving DecidableEq, Repr

/-- SQL `add_transcription_topup_credits(p_user_id, p_stripe_payment_intent_id,
p_minutes, p_amount_paid)`: if a purchase with the payment-intent id already
exists, returns the current balance flagged `already_processed` without any
write; otherwise records the purchase and credits the balance. -/
def add_transcription_topup_credits (st : LedgerState)
    (uid : Nat) (intentId : String) (m amount : Nat) :
    TopupCreditResult × LedgerState :=
  if st.purchases.any (fun p => p.stripePaymentIntentId == intentId) then
    ({ success := true, alreadyProcessed := true,
       newBalance := (lookupProfile st.profiles uid).map (·.transcriptionMinutesTopup) }, st)
  else
    let profiles' := updateProfileTopup st.profiles uid (fun b => b + m)
    let st' := { st with purchases := st.purchases ++ [TopupPurchase.mk uid intentId m amount],
                         profiles := profiles' }
    ({ success := true, alreadyProcessed := false,
       newBalance := (lookupProfile profiles' uid).map (·.transcriptionMinutesTopup) }, st')

/-! ## Derived ledger readings -/

/-- Sum of usage-record minutes recorded for one job id. -/
def sumUsageForJob (st : LedgerState) (jid : Nat) : Nat :=
  minutesSum (st.usage.filter (fun r => r.jobId == jid))

/-- The perpetual top-up balance of a user (0 if the profile is absent). -/
def topupBalanceOf (st : LedgerState) (uid : Nat) : Nat :=
  ((lookupProfile st.profiles uid).map (·.transcriptionMinutesTopup)).getD 0

/-- Minutes a refund of the given job credits back to the given user:
the top-up-sourced usage rows of the job belonging to that user. -/
def topupRefundFor (st : LedgerState) (jid uid : Nat) : Nat :=
  minutesSum (st.usage.filter (fun r =>
    r.jobId == jid && r.source == UsageSource.topup && r.userId == uid))

/-! ## Lookup/update lemmas -/

theorem lookupProfile_updateProfileTopup (ps : List (Nat × Profile)) (uid v : Nat)
    (f : Nat → Nat) :
    lookupProfile (updateProfileTopup ps uid f) v =
      if v = uid then
        (lookupProfile ps v).map
          (fun pr => { pr with transcriptionMinutesTopup := f pr.transcriptionMinutesTopup })
      else lookupProfile ps v := by
  unfold lookupProfile updateProfileTopup
  rw [List.find?_map]
  have hpg : ((fun e : Nat × Profile => e.1 == v) ∘ fun e =>
      if e.1 == uid then
        (e.1, { e.2 with transcriptionMinutesTopup := f e.2.transcriptionMinutesTopup })
      else e) = fun e : Nat × Profile => e.1 == v := by
    funext e
    by_cases h : e.1 = uid <;> simp [Function.comp, h]
  rw [hpg]
  cases hfind : List.find? (fun e : Nat × Profile => e.1 == v) ps with
  | none => simp
  | some e =>
      have hev : e.1 = v := by
        have := List.find?_some hfind
        simpa using this
      by_cases hv : v = uid
      · simp [hev, hv]
      · have : ¬ (e.1 = uid) := by rw [hev]; exact hv
        simp [this, hv]

theorem filter_erased_usage (l : List UsageRow) (jid : Nat) :
    (l.filter (fun r => !(r.jobId == jid))).filter (fun r => r.jobId == jid) = [] := by
  induction l with
  | nil => rfl
  | cons r rest ih => by_cases h : r.jobId = jid <;> simp [h, ih]

theorem filter_filter_topup_user (l : List UsageRow) (jid uid : Nat) :
    (l.filter (fun r => r.jobId == jid)).filter
        (fun r => r.source == UsageSource.topup && r.userId == uid)
    = l.filter (fun r =>
        r.jobId == jid && r.source == UsageSource.topup && r.userId == uid) := by
  induction l with
  | nil => rfl
  | cons r rest ih =>
      by_cases h1 : r.jobId = jid <;> by_cases h2 : r.source = UsageSource.topup <;>
        by_cases h3 : r.userId = uid <;> simp [h1, h2, h3, ih]

/-- Effect of the refund loop on profile lookups: each user's top-up balance
grows by the sum of the top-up-sourced minutes among the folded rows that
belong to that user. -/
theorem lookupProfile_refundFold (rows : List UsageRow) (ps : List (Nat × Profile))
    (uid : Nat) :
    lookupProfile
      (rows.foldl
        (fun acc r =>
          if r.source == UsageSource.topup then
            updateProfileTopup acc r.userId (fun b => b + r.minutesUsed)
          else acc)
        ps) uid
    = (lookupProfile ps uid).map
        (fun pr => { pr with transcriptionMinutesTopup :=
          pr.transcriptionMinutesTopup + minutesSum (rows.filter
            (fun r => r.source == UsageSource.topup && r.userId == uid)) }) := by
  induction rows generalizing ps with
  | nil =>
      cases h : lookupProfile ps uid <;> simp [minutesSum, h]
  | cons r rest ih =>
      rw [List.foldl_cons, ih]
      cases hsrc : r.source with
      | subscription =>
          rw [if_neg (by decide)]
          cases h : lookupProfile ps uid <;>
            simp [h, hsrc, List.filter_cons, minutesSum]
      | topup =>
          rw [if_pos (by decide)]
          rw [lookupProfile_updateProfileTopup]
          by_cases h3 : uid = r.userId
          · subst h3
            cases h : lookupProfile ps r.userId <;>
              simp [h, hsrc, List.filter_cons, minutesSum, Nat.add_assoc]
          · have h3' : ¬ (r.userId = uid) := fun hc => h3 hc.symm
            cases h : lookupProfile ps uid <;>
              simp [h, hsrc, h3, h3', List.filter_cons, minutesSum]

/-- C3 helper: a concrete ledger state with one pro user holding a 20-minute
top-up balance and no usage yet. -/
def sampleLedger : LedgerState :=
  { profiles := [(1, { subscriptionTier := "pro", transcriptionMinutesTopup := 20 })],
    usage := [],
    purchases := [] }

/-- C3: the atomic consume splits consumption subscription-bucket-first.
With subscription remainder `s = subLimit - periodUsage` (truncated) and
top-up balance `t`: if `m ≤ s` it charges `m` to subscription and `0` to
top-up; if `s < m ≤ s + t` it charges `s` to subscription and `m - s` to
top-up; if `m > s + t` it inserts no usage rows, leaves the top-up balance
unchanged, and returns `allowed = false` with reason `INSUFFICIENT_CREDITS`. -/
theorem consume_split_spec (st : LedgerState) (uid jid m subLimit ps pe : Nat)
    (prof : Profile) (hprof : lookupProfile st.profiles uid = some prof)
    (hpro : prof.subscriptionTier = "pro") :
    (m ≤ subLimit - get_transcription_usage_in_period st uid ps pe →
      (consume_transcription_minutes_atomically st uid jid m subLimit ps pe).1.allowed = true ∧
      (consume_transcription_minutes_atomically st uid jid m subLimit ps pe).1.minutesFromSubscription = m ∧
      (consume_transcription_minutes_atomically st uid jid m subLimit ps pe).1.minutesFromTopup = 0 ∧
      (consume_transcription_minutes_atomically st uid jid m subLimit ps pe).2.usage =
        st.usage ++ (if 0 < m then
          [UsageRow.mk uid jid m UsageSource.subscription (some ps) (some pe)] else []) ∧
      (consume_transcription_minutes_atomically st uid jid m subLimit ps pe).2.profiles =
        st.profiles) ∧
    (subLimit - get_transcription_usage_in_period st uid ps pe < m →
     m ≤ subLimit - get_transcription_usage_in_period st uid ps pe
           + prof.transcriptionMinutesTopup →
      (consume_transcription_minutes_atomically st uid jid m subLimit ps pe).1.allowed = true ∧
      (consume_transcription_minutes_atomically st uid jid m subLimit ps pe).1.minutesFromSubscription =
        subLimit - get_transcription_usage_in_period st uid ps pe ∧
      (consume_transcription_minutes_atomically st uid jid m subLimit ps pe).1.minutesFromTopup =
        m - (subLimit - get_transcription_usage_in_period st uid ps pe) ∧
      (consume_transcription_minutes_atomically st uid jid m subLimit ps pe).2.usage =
        st.usage
          ++ (if 0 < subLimit - get_transcription_usage_in_period st uid ps pe then
               [UsageRow.mk uid jid (subLimit - get_transcription_usage_in_period st uid ps pe)
                  UsageSource.subscription (some ps) (some pe)] else [])
          ++ [UsageRow.mk uid jid (m - (subLimit - get_transcription_usage_in_period st uid ps pe))
                UsageSource.topup (some ps) (some pe)] ∧
      topupBalanceOf (consume_transcription_minutes_atomically st uid jid m subLimit ps pe).2 uid =
        prof.transcriptionMinutesTopup
          - (m - (subLimit - get_transcription_usage_in_period st uid ps pe))) ∧
    (subLimit - get_transcription_usage_in_period st uid ps pe
        + prof.transcriptionMinutesTopup < m →
      (consume_transcription_minutes_atomically st uid jid m subLimit ps pe).1.allowed = false ∧
      (consume_transcription_minutes_atomically st uid jid m subLimit ps pe).1.reason =
        "INSUFFICIENT_CREDITS" ∧
      (consume_transcription_minutes_atomically st uid jid m subLimit ps pe).2 = st) := by
  refine ⟨?_, ?_, ?_⟩
  · intro h1
    simp [consume_transcription_minutes_atomically, hprof, hpro, h1]
  · intro h1 h2
    have hns : ¬ (subLimit - get_transcription_usage_in_period st uid ps pe ≥ m) := by omega
    have hpos : 0 < m - (subLimit - get_transcription_usage_in_period st uid ps pe) := by omega
    refine ⟨?_, ?_, ?_, ?_, ?_⟩ <;>
      simp [consume_transcription_minutes_atomically, hprof, hpro, hns, h2, hpos,
        topupBalanceOf, lookupProfile_updateProfileTopup]
  · intro h1
    have hns : ¬ (subLimit - get_transcription_usage_in_period st uid ps pe ≥ m) := by omega
    have hnt : ¬ (subLimit - get_transcription_usage_in_period st uid ps pe
        + prof.transcriptionMinutesTopup ≥ m) := by omega
    simp [consume_transcription_minutes_atomically, hprof, hpro, hns, hnt]

/-- C3 witness: the spec's own scenario — 10 subscription minutes remaining,
20-minute top-up, job needs 15 minutes: consumes 10 from subscription and 5
from top-up, leaving top-up at 15. -/
theorem consume_split_spec_witness :
    (consume_transcription_minutes_atomically sampleLedger 1 7 15 10 100 200).1.allowed = true ∧
    (consume_transcription_minutes_atomically sampleLedger 1 7 15 10 100 200).1.minutesFromSubscription = 10 ∧
    (consume_transcription_minutes_atomically sampleLedger 1 7 15 10 100 200).1.minutesFromTopup = 5 ∧
    topupBalanceOf (consume_transcription_minutes_atomically sampleLedger 1 7 15 10 100 200).2 1 = 15 := by
  have h := consume_split_spec sampleLedger 1 7 15 10 100 200
    { subscriptionTier := "pro", transcriptionMinutesTopup := 20 }
    (by decide) (by decide)
  obtain ⟨-, h2, -⟩ := h
  obtain ⟨ha, hs, ht, -, hb⟩ := h2 (by decide) (by decide)
  refine ⟨ha, ?_, ?_, ?_⟩
  · rw [hs]; decide
  · rw [ht]; decide
  · rw [hb]; decide

/-- C4: refund deletes all usage rows of the job (their minute sum becomes 0),
credits each top-up-sourced row's minutes back to its user's perpetual
balance while restoring nothing for subscription-sourced rows, and is a
no-op on a job with no usage rows. -/
theorem refund_reverses_usage (st : LedgerState) (jid : Nat) :
    (refund_transcription_minutes st jid).1.success = true ∧
    (refund_transcription_minutes st jid).1.minutesRefunded = sumUsageForJob st jid ∧
    sumUsageForJob (refund_transcription_minutes st jid).2 jid = 0 ∧
    (∀ uid, lookupProfile (refund_transcription_minutes st jid).2.profiles uid =
      (lookupProfile st.profiles uid).map
        (fun pr => { pr with transcriptionMinutesTopup :=
          pr.transcriptionMinutesTopup + topupRefundFor st jid uid })) ∧
    (st.usage.filter (fun r => r.jobId == jid) = [] →
      (refund_transcription_minutes st jid).2 = st) := by
  refine ⟨rfl, rfl, ?_, ?_, ?_⟩
  · simp [refund_transcription_minutes, sumUsageForJob, filter_erased_usage, minutesSum]
  · intro uid
    simp only [refund_transcription_minutes]
    rw [lookupProfile_refundFold]
    rw [topupRefundFor, ← filter_filter_topup_user]
  · intro h
    simp only [refund_transcription_minutes, h, List.foldl_nil]
    have husage : st.usage.filter (fun r => !(r.jobId == jid)) = st.usage := by
      rw [List.filter_eq_self]
      intro r hr
      by_contra hmem
      have : r ∈ st.usage.filter (fun r => r.jobId == jid) := by
        rw [List.mem_filter]
        exact ⟨hr, by simpa using hmem⟩
      rw [h] at this
      exact absurd this (List.not_mem_nil r)
    rw [husage]

/-- C4 witness ledger: one subscription row (6 min) and one top-up row
(4 min) for job 7, user 1 holding a top-up balance of 3. -/
def refundWitnessLedger : LedgerState :=
  { profiles := [(1, { subscriptionTier := "pro", transcriptionMinutesTopup := 3 })],
    usage := [UsageRow.mk 1 7 6 UsageSource.subscription (some 100) (some 200),
              UsageRow.mk 1 7 4 UsageSource.topup (some 100) (some 200)],
    purchases := [] }

/-- C4 witness: refunding job 7 zeroes the job's usage and credits the 4
top-up minutes back (balance 3 becomes 7) but not the 6 subscription
minutes; refunding job 99, which has no rows, leaves the state unchanged. -/
theorem refund_reverses_usage_witness :
    sumUsageForJob (refund_transcription_minutes refundWitnessLedger 7).2 7 = 0 ∧
    lookupProfile (refund_transcription_minutes refundWitnessLedger 7).2.profiles 1 =
      some { subscriptionTier := "pro", transcriptionMinutesTopup := 7 } ∧
    (refund_transcription_minutes refundWitnessLedger 99).2 = refundWitnessLedger := by
  refine ⟨?_, ?_, ?_⟩
  · exact (refund_reverses_usage refundWitnessLedger 7).2.2.1
  · have h := ((refund_reverses_usage refundWitnessLedger 7).2.2.2.1) 1
    rw [h]; decide
  · exact ((refund_reverses_usage refundWitnessLedger 99).2.2.2.2) (by decide)

/-- C7 witness ledger: one pro user (id 1) with top-up balance 3 and no
recorded purchases. -/
def topupWitnessLedger : LedgerState :=
  { profiles := [(1, { subscriptionTier := "pro", transcriptionMinutesTopup := 3 })],
    usage := [],
    purchases := [] }

/-- Reduction of `add_transcription_topup_credits` when the payment intent
was already processed. -/
theorem add_topup_already (st : LedgerState) (uid : Nat) (intent : String) (m amt : Nat)
    (h : st.purchases.any (fun p => p.stripePaymentIntentId == intent) = true) :
    add_transcription_topup_credits st uid intent m amt =
      ({ success := true, alreadyProcessed := true,
         newBalance := (lookupProfile st.profiles uid).map (·.transcriptionMinutesTopup) },
       st) := by
  unfold add_transcription_topup_credits
  rw [h]
  rfl

/-- Reduction of `add_transcription_topup_credits` on a fresh payment intent. -/
theorem add_topup_fresh (st : LedgerState) (uid : Nat) (intent : String) (m amt : Nat)
    (h : st.purchases.any (fun p => p.stripePaymentIntentId == intent) = false) :
    add_transcription_topup_credits st uid intent m amt =
      ({ success := true, alreadyProcessed := false,
         newBalance := (lookupProfile (updateProfileTopup st.profiles uid (fun b => b + m))
           uid).map (·.transcriptionMinutesTopup) },
       { st with purchases := st.purchases ++ [TopupPurchase.mk uid intent m amt],
                 profiles := updateProfileTopup st.profiles uid (fun b => b + m) }) := by
  unfold add_transcription_topup_credits
  rw [h]
  rfl

/-- C7: calling the top-up credit operation twice with the same
payment-intent id credits the balance exactly once: the first (fresh) call
records one purchase and adds the minutes; the second call reports
`already_processed`, performs no state change, and records no second
purchase. -/
theorem credit_topup_idempotent (st : LedgerState) (uid : Nat) (intent : String)
    (m amt : Nat) (prof : Profile)
    (hprof : lookupProfile st.profiles uid = some prof)
    (hnew : st.purchases.any (fun p => p.stripePaymentIntentId == intent) = false) :
    (add_transcription_topup_credits st uid intent m amt).1.alreadyProcessed = false ∧
    topupBalanceOf (add_transcription_topup_credits st uid intent m amt).2 uid
      = topupBalanceOf st uid + m ∧
    ((add_transcription_topup_credits st uid intent m amt).2.purchases.filter
        (fun p => p.stripePaymentIntentId == intent)).length = 1 ∧
    (add_transcription_topup_credits
        (add_transcription_topup_credits st uid intent m amt).2
        uid intent m amt).1.alreadyProcessed = true ∧
    (add_transcription_topup_credits
        (add_transcription_topup_credits st uid intent m amt).2
        uid intent m amt).1.success = true ∧
    (add_transcription_topup_credits
        (add_transcription_topup_credits st uid intent m amt).2
        uid intent m amt).2
      = (add_transcription_topup_credits st uid intent m amt).2 := by
  have hfirst := add_topup_fresh st uid intent m amt hnew
  have hsecond :
      ((add_transcription_topup_credits st uid intent m amt).2).purchases.any
        (fun p => p.stripePaymentIntentId == intent) = true := by
    rw [hfirst]
    simp
  have hsec := add_topup_already
    ((add_transcription_topup_credits st uid intent m amt).2) uid intent m amt hsecond
  refine ⟨?_, ?_, ?_, ?_, ?_, ?_⟩
  · rw [hfirst]
  · rw [hfirst]
    simp only [topupBalanceOf]
    rw [lookupProfile_updateProfileTopup]
    simp [hprof]
  · rw [hfirst]
    have hempty : st.purchases.filter (fun p => p.stripePaymentIntentId == intent) = [] :=
      List.filter_eq_nil_iff.mpr (List.any_eq_false.mp hnew)
    simp [List.filter_append, hempty]
  · rw [hsec]
  · rw [hsec]
  · rw [hsec]

/-- C7 witness: crediting payment intent "pi_1" with 20 minutes twice on
`topupWitnessLedger` yields balance 23, one purchase row, and an unchanged
state on the duplicate call. -/
theorem credit_topup_idempotent_witness :
    (add_transcription_topup_credits topupWitnessLedger 1 "pi_1" 20 999).1.alreadyProcessed = false ∧
    topupBalanceOf (add_transcription_topup_credits topupWitnessLedger 1 "pi_1" 20 999).2 1
      = topupBalanceOf topupWitnessLedger 1 + 20 ∧
    (add_transcription_topup_credits
        (add_transcription_topup_credits topupWitnessLedger 1 "pi_1" 20 999).2
        1 "pi_1" 20 999).1.alreadyProcessed = true ∧
    (add_transcription_topup_credits
        (add_transcription_topup_credits topupWitnessLedger 1 "pi_1" 20 999).2
        1 "pi_1" 20 999).2
      = (add_transcription_topup_credits topupWitnessLedger 1 "pi_1" 20 999).2 := by
  have h := credit_topup_idempotent topupWitnessLedger 1 "pi_1" 20 999
    { subscriptionTier := "pro", transcriptionMinutesTopup := 3 }
    (by decide) (by decide)
  exact ⟨h.1, h.2.1, h.2.2.2.1, h.2.2.2.2.2⟩

/-- C9 (claim as stated, refuted): it is not the case that every
top-up-sourced usage row newly created by the atomic consume operation has
null period bounds — consuming 15 minutes against a 10-minute subscription
remainder on `sampleLedger` inserts a top-up row carrying the caller's
period bounds `some 100`/`some 200`. -/
theorem topup_rows_null_period_counterexample :
    ¬ (∀ r ∈ (consume_transcription_minutes_atomically sampleLedger 1 7 15 10 100 200).2.usage,
        r ∉ sampleLedger.usage → r.source = UsageSource.topup →
        r.periodStart = none ∧ r.periodEnd = none) := by
  decide

/-- C9 (amended): every usage row created by the atomic consume operation —
top-up-sourced rows included — carries the caller-supplied period bounds
`some ps`/`some pe` (not null), together with the caller's user and job ids. -/
theorem consume_rows_carry_period (st : LedgerState) (uid jid m subLimit ps pe : Nat) :
    ∀ r ∈ (consume_transcription_minutes_atomically st uid jid m subLimit ps pe).2.usage,
      r ∈ st.usage ∨
        (r.userId = uid ∧ r.jobId = jid ∧
         r.periodStart = some ps ∧ r.periodEnd = some pe) := by
  intro r hr
  cases hlk : lookupProfile st.profiles uid with
  | none =>
      simp [consume_transcription_minutes_atomically, hlk] at hr
      exact Or.inl hr
  | some prof =>
      by_cases hp : prof.subscriptionTier = "pro"
      · by_cases h1 : subLimit - get_transcription_usage_in_period st uid ps pe ≥ m
        · by_cases hmz : 0 < m
          · simp [consume_transcription_minutes_atomically, hlk, hp, h1, hmz] at hr
            rcases hr with hr | hr
            · exact Or.inl hr
            · subst hr; exact Or.inr ⟨rfl, rfl, rfl, rfl⟩
          · simp [consume_transcription_minutes_atomically, hlk, hp, h1, hmz] at hr
            exact Or.inl hr
        · by_cases h2 : subLimit - get_transcription_usage_in_period st uid ps pe
              + prof.transcriptionMinutesTopup ≥ m
          · have hpos : 0 < m - (subLimit - get_transcription_usage_in_period st uid ps pe) := by
              omega
            by_cases hs : 0 < subLimit - get_transcription_usage_in_period st uid ps pe
            · simp [consume_transcription_minutes_atomically, hlk, hp, h1, h2, hpos, hs] at hr
              rcases hr with hr | hr | hr
              · exact Or.inl hr
              · subst hr; exact Or.inr ⟨rfl, rfl, rfl, rfl⟩
              · subst hr; exact Or.inr ⟨rfl, rfl, rfl, rfl⟩
            · simp [consume_transcription_minutes_atomically, hlk, hp, h1, h2, hpos, hs] at hr
              rcases hr with hr | hr
              · exact Or.inl hr
              · subst hr; exact Or.inr ⟨rfl, rfl, rfl, rfl⟩
          · simp [consume_transcription_minutes_atomically, hlk, hp, h1, h2] at hr
            exact Or.inl hr
      · simp [consume_transcription_minutes_atomically, hlk, hp] at hr
        exact Or.inl hr

/-- C9 amended-theorem witness: the top-up row inserted by the sampleLedger
consumption satisfies the amended property (it carries bounds
`some 100`/`some 200`). -/
theorem consume_rows_carry_period_witness :
    (UsageRow.mk 1 7 5 UsageSource.topup (some 100) (some 200)) ∈ sampleLedger.usage ∨
      ((UsageRow.mk 1 7 5 UsageSource.topup (some 100) (some 200)).userId = 1 ∧
       (UsageRow.mk 1 7 5 UsageSource.topup (some 100) (some 200)).jobId = 7 ∧
       (UsageRow.mk 1 7 5 UsageSource.topup (some 100) (some 200)).periodStart = some 100 ∧
       (UsageRow.mk 1 7 5 UsageSource.topup (some 100) (some 200)).periodEnd = some 200) :=
  consume_rows_carry_period sampleLedger 1 7 15 10 100 200
    (UsageRow.mk 1 7 5 UsageSource.topup (some 100) (some 200)) (by decide)

/-! ## Job orchestrator (`app/api/transcribe/process/route.ts`) -/

/-- One transcript segment as persisted in `transcript_data`
(`{text, start, duration}`; the client computes `duration = end - start`). -/
structure TranscriptSegment where
  text : String
  start : Int
  duration : Int
deriving DecidableEq, Repr

/-- `transcription_jobs.status`: CHECK (status IN ('pending', 'downloading',
'transcribing', 'completed', 'failed', 'cancelled')). -/
inductive JobStatus where
  | pending
  | downloading
  | transcribing
  | completed
  | failed
  | cancelled
deriving DecidableEq, Repr

/-- The statuses the process route treats as already finished
(route line 57: completed, cancelled, failed). -/
def JobStatus.isTerminal : JobStatus → Bool
  | .completed => true
  | .cancelled => true
  | .failed => true
  | _ => false

/-- The cancellable statuses (cancel route line 60). -/
def JobStatus.isCancellable : JobStatus → Bool
  | .pending => true
  | .downloading => true
  | .transcribing => true
  | _ => false

/-- The job-row fields the orchestrator and the claims read or write. -/
structure Job where
  userId : Nat
  status : JobStatus
  progress : Nat
  currentStage : Option String
  transcriptData : Option (List TranscriptSegment)
  errorMessage : Option String
deriving DecidableEq, Repr

/-- A freshly submitted job: table defaults `status = 'pending'`,
`progress = 0`, `transcript_data` null. -/
def initialJob (uid : Nat) : Job :=
  { userId := uid, status := JobStatus.pending, progress := 0,
    currentStage := none, transcriptData := none, errorMessage := none }

/-- Successful output of `transcribeAudio` as consumed by the route
(segments, language, duration in seconds). -/
structure TranscriptionOut where
  segments : List TranscriptSegment
  language : String
  duration : Nat
deriving DecidableEq, Repr

/-- Outcomes of the two external calls the route awaits: whether
`extractYouTubeAudio` succeeds, and what `transcribeAudio` returns
(`none` = it throws). -/
structure ProcEnv where
  downloadOk : Bool
  transcription : Option TranscriptionOut
deriving DecidableEq, Repr

/-- The ledger arguments the transcription manager supplies when the route
calls `consumeTranscriptionMinutes`/`refundTranscriptionMinutes`. -/
structure ProcParams where
  jobId : Nat
  subscriptionLimit : Nat
  periodStart : Nat
  periodEnd : Nat
deriving DecidableEq, Repr

/-- The HTTP responses of the route the claims mention. -/
inductive ProcResponse where
  | alreadyTerminal (status : JobStatus)
  | downloadFailed
  | transcriptionFailed
  | completedOk
deriving DecidableEq, Repr

/-- The failed-status write of `handleJobFailure` (route lines 187-191). -/
def failJob (j : Job) (msg : String) : Job :=
  { j with status := JobStatus.failed, errorMessage := some msg }

/-- `handleJobFailure` (route lines 182-195): first writes status 'failed',
then refunds. Returns the final job and ledger plus the observable states in
write order: the failed job with the still-unrefunded ledger, then the failed
job with the refunded ledger. -/
def handleJobFailure (j : Job) (st : LedgerState) (jid : Nat) (msg : String) :
    Job × LedgerState × List (Job × LedgerState) :=
  let jf := failJob j msg
  let st' := (refund_transcription_minutes st jid).2
  (jf, st', [(jf, st), (jf, st')])

/-- Result of one invocation of the process route: response, final job row,
final ledger, and the trace of observable (job, ledger) states after each
awaited write, in program order. -/
structure ProcOutcome where
  response : ProcResponse
  job : Job
  ledger : LedgerState
  trace : List (Job × LedgerState)
deriving DecidableEq, Repr

/-- `POST /api/transcribe/process` on an existing job: early-returns on a
terminal status; otherwise marks downloading (10), downloads, marks
transcribing (30), transcribes, marks progress 90, consumes minutes
(`Math.ceil(duration / 60)`), and marks completed (100) with the transcript —
note the route does NOT fail the job when consumption is denied (lines
145-148 log and continue). -/
def processJob (env : ProcEnv) (p : ProcParams) (j : Job) (st : LedgerState) :
    ProcOutcome :=
  if j.status.isTerminal then
    { response := ProcResponse.alreadyTerminal j.status, job := j, ledger := st, trace := [] }
  else
    let j1 := { j with status := JobStatus.downloading, progress := 10,
                       currentStage := some "Downloading audio from YouTube" }
    if !env.downloadOk then
      let r := handleJobFailure j1 st p.jobId "Failed to download audio from YouTube"
      { response := ProcResponse.downloadFailed, job := r.1, ledger := r.2.1,
        trace := (j1, st) :: r.2.2 }
    else
      let j2 := { j1 with status := JobStatus.transcribing, progress := 30,
                          currentStage := some "Transcribing audio with AI" }
      match env.transcription with
      | none =>
          let r := handleJobFailure j2 st p.jobId "AI transcription failed"
          { response := ProcResponse.transcriptionFailed, job := r.1, ledger := r.2.1,
            trace := (j1, st) :: (j2, st) :: r.2.2 }
      | some out =>
          let j3 := { j2 with progress := 90, currentStage := some "Finalizing transcript" }
          let durationMinutes := (out.duration + 59) / 60
          let st2 := (consume_transcription_minutes_atomically st j.userId p.jobId
            durationMinutes p.subscriptionLimit p.periodStart p.periodEnd).2
          let j4 := { j3 with status := JobStatus.completed, progress := 100,
                              currentStage := some "Complete",
                              transcriptData := some out.segments }
          { response := ProcResponse.completedOk, job := j4, ledger := st2,
            trace := [(j1, st), (j2, st), (j3, st), (j3, st2), (j4, st2)] }

/-- A denied consume call leaves the ledger state untouched (all three
denying branches of the SQL return before any insert or update). -/
theorem consume_denied_fixes_state (st : LedgerState) (uid jid m subLimit ps pe : Nat) :
    (consume_transcription_minutes_atomically st uid jid m subLimit ps pe).1.allowed = false →
    (consume_transcription_minutes_atomically st uid jid m subLimit ps pe).2 = st := by
  intro h
  cases hlk : lookupProfile st.profiles uid with
  | none => simp [consume_transcription_minutes_atomically, hlk]
  | some prof =>
      by_cases hp : prof.subscriptionTier = "pro"
      · by_cases h1 : subLimit - get_transcription_usage_in_period st uid ps pe ≥ m
        · simp [consume_transcription_minutes_atomically, hlk, hp, h1] at h
        · by_cases h2 : subLimit - get_transcription_usage_in_period st uid ps pe
              + prof.transcriptionMinutesTopup ≥ m
          · simp [consume_transcription_minutes_atomically, hlk, hp, h1, h2] at h
          · simp [consume_transcription_minutes_atomically, hlk, hp, h1, h2]
      · simp [consume_transcription_minutes_atomically, hlk, hp]

/-- Refunding a job removes all its usage rows. -/
theorem sumUsageForJob_refund (st : LedgerState) (jid : Nat) :
    sumUsageForJob (refund_transcription_minutes st jid).2 jid = 0 := by
  simp [refund_transcription_minutes, sumUsageForJob, filter_erased_usage, minutesSum]

/-- C10: invoking the process route on a job whose status is already
terminal (completed, failed, or cancelled) is a no-op: it responds with the
existing status and leaves the job row, the ledger, and the write trace
empty-handed — no status update, no download, no transcription, no
consumption or refund. -/
theorem process_terminal_noop (env : ProcEnv) (p : ProcParams) (j : Job)
    (st : LedgerState) (h : j.status.isTerminal = true) :
    processJob env p j st =
      { response := ProcResponse.alreadyTerminal j.status, job := j,
        ledger := st, trace := [] } := by
  simp [processJob, h]

/-- A completed job used by the C10 witness. -/
def doneJob : Job :=
  { userId := 1, status := JobStatus.completed, progress := 100,
    currentStage := some "Complete",
    transcriptData := some [TranscriptSegment.mk "hi" 0 2], errorMessage := none }

/-- C10 witness: re-invoking the route on a completed job returns the
existing status and changes nothing. -/
theorem process_terminal_noop_witness :
    processJob { downloadOk := true, transcription := none }
        { jobId := 7, subscriptionLimit := 10, periodStart := 100, periodEnd := 200 }
        doneJob sampleLedger =
      { response := ProcResponse.alreadyTerminal JobStatus.completed, job := doneJob,
        ledger := sampleLedger, trace := [] } :=
  process_terminal_noop { downloadOk := true, transcription := none }
    { jobId := 7, subscriptionLimit := 10, periodStart := 100, periodEnd := 200 }
    doneJob sampleLedger (by decide)

/-- Ledger for the C1 scenario: pro user 1 with 0 top-up minutes, so a
15-minute job against a 10-minute subscription limit is denied. -/
def c1Ledger : LedgerState :=
  { profiles := [(1, { subscriptionTier := "pro", transcriptionMinutesTopup := 0 })],
    usage := [], purchases := [] }

/-- Ledger parameters shared by the orchestrator scenarios. -/
def procParams7 : ProcParams :=
  { jobId := 7, subscriptionLimit := 10, periodStart := 100, periodEnd := 200 }

/-- Environment where download and transcription both succeed with a
900-second (15-minute) result. -/
def okEnv : ProcEnv :=
  { downloadOk := true,
    transcription := some { segments := [TranscriptSegment.mk "hello" 0 2],
                            language := "en", duration := 900 } }

/-- C1 (claim as stated, refuted): transcription succeeds, the atomic
consume is denied with INSUFFICIENT_CREDITS — yet the route marks the job
completed and persists the transcript (route lines 145-157 log the denial
and continue), instead of failing the job and discarding the transcript. -/
theorem denied_consume_still_completes_counterexample :
    (consume_transcription_minutes_atomically c1Ledger 1 7 15 10 100 200).1.allowed = false ∧
    (consume_transcription_minutes_atomically c1Ledger 1 7 15 10 100 200).1.reason =
      "INSUFFICIENT_CREDITS" ∧
    (processJob okEnv procParams7 (initialJob 1) c1Ledger).job.status = JobStatus.completed ∧
    (processJob okEnv procParams7 (initialJob 1) c1Ledger).job.transcriptData =
      some [TranscriptSegment.mk "hello" 0 2] := by
  decide

/-- C1 (amended): when transcription succeeds, the route completes the job
and persists the transcript regardless of the consume outcome ("Don't fail
the job, credits will be handled manually"); if consumption was denied, the
ledger is simply left unchanged — no INSUFFICIENT_CREDITS failure occurs. -/
theorem process_completes_despite_denied_consume
    (env : ProcEnv) (p : ProcParams) (j : Job) (st : LedgerState) (out : TranscriptionOut)
    (hterm : j.status.isTerminal = false)
    (hdl : env.downloadOk = true)
    (htr : env.transcription = some out) :
    (processJob env p j st).response = ProcResponse.completedOk ∧
    (processJob env p j st).job.status = JobStatus.completed ∧
    (processJob env p j st).job.progress = 100 ∧
    (processJob env p j st).job.transcriptData = some out.segments ∧
    ((consume_transcription_minutes_atomically st j.userId p.jobId
        ((out.duration + 59) / 60) p.subscriptionLimit p.periodStart p.periodEnd).1.allowed
        = false →
      (processJob env p j st).ledger = st) := by
  refine ⟨?_, ?_, ?_, ?_, ?_⟩
  · simp [processJob, hterm, hdl, htr]
  · simp [processJob, hterm, hdl, htr]
  · simp [processJob, hterm, hdl, htr]
  · simp [processJob, hterm, hdl, htr]
  · intro hdenied
    simp only [processJob, hterm, Bool.false_eq_true, if_false, hdl, Bool.not_true, htr]
    exact consume_denied_fixes_state st j.userId p.jobId
      ((out.duration + 59) / 60) p.subscriptionLimit p.periodStart p.periodEnd hdenied

/-- C1 amended-theorem witness: on the denied-consume scenario the run ends
completed with the transcript persisted and the ledger untouched. -/
theorem process_completes_despite_denied_consume_witness :
    (processJob okEnv procParams7 (initialJob 1) c1Ledger).job.status = JobStatus.completed ∧
    (processJob okEnv procParams7 (initialJob 1) c1Ledger).ledger = c1Ledger := by
  have h := process_completes_despite_denied_consume okEnv procParams7 (initialJob 1) c1Ledger
    { segments := [TranscriptSegment.mk "hello" 0 2], language := "en", duration := 900 }
    (by decide) (by decide) rfl
  exact ⟨h.2.1, h.2.2.2.2 (by decide)⟩

/-- A job abandoned mid-flight in 'transcribing' (reachable when a prior
invocation consumed minutes and then died before the completed write). -/
def c2Job : Job :=
  { userId := 1, status := JobStatus.transcribing, progress := 30,
    currentStage := some "Transcribing audio with AI",
    transcriptData := none, errorMessage := none }

/-- Ledger in which job 7 already holds a 5-minute top-up usage row. -/
def c2Ledger : LedgerState :=
  { profiles := [(1, { subscriptionTier := "pro", transcriptionMinutesTopup := 0 })],
    usage := [UsageRow.mk 1 7 5 UsageSource.topup (some 100) (some 200)],
    purchases := [] }

/-- Environment where the audio download fails. -/
def failEnv : ProcEnv := { downloadOk := false, transcription := none }

/-- C2 (claim as stated, refuted): `handleJobFailure` writes status 'failed'
BEFORE invoking refund, so the write trace of a failing run contains an
observable state in which the job is failed while its usage rows are still
pending refund — refund-before-fail does not hold. -/
theorem refund_before_fail_counterexample :
    ¬ (∀ s ∈ (processJob failEnv procParams7 c2Job c2Ledger).trace,
        s.1.status = JobStatus.failed → sumUsageForJob s.2 procParams7.jobId = 0) := by
  decide

/-- C2 (amended): every failure path of the route still invokes refund, but
immediately AFTER the failed-status write, not before: when a run ends
failed its usage rows are fully refunded (sum 0), and on the
download-failure path the trace shows the failed job first with the
unrefunded ledger and then with the refunded one. -/
theorem refund_after_fail (env : ProcEnv) (p : ProcParams) (j : Job) (st : LedgerState)
    (hterm : j.status.isTerminal = false) :
    ((processJob env p j st).job.status = JobStatus.failed →
      sumUsageForJob (processJob env p j st).ledger p.jobId = 0) ∧
    (env.downloadOk = false →
      ∃ jf, jf.status = JobStatus.failed ∧
        (processJob env p j st).trace.drop 1 =
          [(jf, st), (jf, (refund_transcription_minutes st p.jobId).2)]) := by
  by_cases hdl : env.downloadOk = true
  · cases htr : env.transcription with
    | none =>
        constructor
        · intro _
          simp only [processJob, hterm, Bool.false_eq_true, if_false, hdl, Bool.not_true,
            htr, handleJobFailure]
          exact sumUsageForJob_refund st p.jobId
        · intro hcontra
          rw [hdl] at hcontra
          cases hcontra
    | some out =>
        constructor
        · intro hfail
          simp [processJob, hterm, hdl, htr, failJob] at hfail
        · intro hcontra
          rw [hdl] at hcontra
          cases hcontra
  · have hdl' : env.downloadOk = false := by
      cases h : env.downloadOk
      · rfl
      · exact absurd h hdl
    constructor
    · intro _
      simp only [processJob, hterm, Bool.false_eq_true, if_false, hdl', Bool.not_false,
        if_true, handleJobFailure]
      exact sumUsageForJob_refund st p.jobId
    · intro _
      refine ⟨(failJob
        { j with status := JobStatus.downloading, progress := 10,
                 currentStage := some "Downloading audio from YouTube" }
        "Failed to download audio from YouTube"), rfl, ?_⟩
      simp [processJob, hterm, hdl', handleJobFailure]

/-- C2 amended-theorem witness: on the failing-download run over `c2Ledger`
the final ledger holds no usage rows for job 7, and the trace shows the
failed write preceding the refund. -/
theorem refund_after_fail_witness :
    sumUsageForJob (processJob failEnv procParams7 c2Job c2Ledger).ledger 7 = 0 ∧
    (∃ jf, jf.status = JobStatus.failed ∧
      (processJob failEnv procParams7 c2Job c2Ledger).trace.drop 1 =
        [(jf, c2Ledger), (jf, (refund_transcription_minutes c2Ledger 7).2)]) := by
  have h := refund_after_fail failEnv procParams7 c2Job c2Ledger (by decide)
  exact ⟨h.1 (by decide), h.2 (by decide)⟩

/-! ## Reachable job states (one invocation at a time, with cooperative
cancellation interleaved between awaited writes, as in §5 of the spec:
one stateless invocation per job id; the cancel route may flip a
cancellable job to 'cancelled' at any point without interrupting the
in-flight invocation, which continues to its next write). -/

/-- Program counter of the in-flight process-route invocation:
`idle` = no invocation running (or the previous one returned/threw). -/
inductive Pc where
  | idle
  | started
  | downloading
  | transcribing
  | finalizing
  | consumed
deriving DecidableEq, Repr

/-- A machine state: the invocation's position plus the job row. -/
structure MState where
  pc : Pc
  job : Job
deriving DecidableEq, Repr

/-- One observable transition of the job row. Each constructor is one write
the route performs (in program order), the cancel route's write, or an
invocation boundary. The stage string of the in-transcription progress
write is one of the three constants of route lines 112-116; the invariant
does not depend on which, so it is left arbitrary here. -/
inductive Step : MState → MState → Prop where
  | invoke (j : Job) (h : j.status.isTerminal = false) :
      Step { pc := Pc.idle, job := j } { pc := Pc.started, job := j }
  | markDownloading (j : Job) :
      Step { pc := Pc.started, job := j }
        { pc := Pc.downloading,
          job := { j with status := JobStatus.downloading, progress := 10,
                          currentStage := some "Downloading audio from YouTube" } }
  | downloadFail (j : Job) (msg : String) :
      Step { pc := Pc.downloading, job := j } { pc := Pc.idle, job := failJob j msg }
  | markTranscribing (j : Job) :
      Step { pc := Pc.downloading, job := j }
        { pc := Pc.transcribing,
          job := { j with status := JobStatus.transcribing, progress := 30,
                          currentStage := some "Transcribing audio with AI" } }
  | progressWrite (j : Job) (p : Nat) (hp : p ≤ 100) (stage : String) :
      Step { pc := Pc.transcribing, job := j }
        { pc := Pc.transcribing,
          job := { j with progress := 30 + 3 * p / 5, currentStage := some stage } }
  | transcribeFail (j : Job) (msg : String) :
      Step { pc := Pc.transcribing, job := j } { pc := Pc.idle, job := failJob j msg }
  | markFinalizing (j : Job) :
      Step { pc := Pc.transcribing, job := j }
        { pc := Pc.finalizing,
          job := { j with progress := 90, currentStage := some "Finalizing transcript" } }
  | consumeCredits (j : Job) :
      Step { pc := Pc.finalizing, job := j } { pc := Pc.consumed, job := j }
  | markCompleted (j : Job) (segs : List TranscriptSegment) :
      Step { pc := Pc.consumed, job := j }
        { pc := Pc.idle,
          job := { j with status := JobStatus.completed, progress := 100,
                          currentStage := some "Complete",
                          transcriptData := some segs } }
  | cancel (pc : Pc) (j : Job) (h : j.status.isCancellable = true) :
      Step { pc := pc, job := j } { pc := pc, job := { j with status := JobStatus.cancelled } }

/-- States reachable from a freshly submitted job. -/
inductive ReachableM : MState → Prop where
  | init (uid : Nat) : ReachableM { pc := Pc.idle, job := initialJob uid }
  | step {s s' : MState} : ReachableM s → Step s s' → ReachableM s'

/-- The inductive invariant: either the job is not completed, its transcript
is still null and its progress at most 90, or it is completed with a
non-null transcript, progress 100, and no invocation mid-flight. -/
def statusInv (s : MState) : Prop :=
  (s.job.transcriptData = none ∧ s.job.progress ≤ 90 ∧ s.job.status ≠ JobStatus.completed)
  ∨ (s.job.status = JobStatus.completed ∧ s.job.transcriptData ≠ none ∧
     s.job.progress = 100 ∧ s.pc = Pc.idle)

theorem statusInv_step {s s' : MState} (hI : statusInv s) (hs : Step s s') :
    statusInv s' := by
  cases hs with
  | invoke j h =>
      rcases hI with ⟨h1, h2, h3⟩ | ⟨h1, h2, h3, h4⟩
      · exact Or.inl ⟨h1, h2, h3⟩
      · rw [h1] at h
        cases h
  | markDownloading j =>
      rcases hI with ⟨h1, h2, h3⟩ | ⟨h1, h2, h3, h4⟩
      · exact Or.inl ⟨h1, by show (10 : Nat) ≤ 90; decide, by simp⟩
      · cases h4
  | downloadFail j msg =>
      rcases hI with ⟨h1, h2, h3⟩ | ⟨h1, h2, h3, h4⟩
      · exact Or.inl ⟨h1, h2, by simp [failJob]⟩
      · cases h4
  | markTranscribing j =>
      rcases hI with ⟨h1, h2, h3⟩ | ⟨h1, h2, h3, h4⟩
      · exact Or.inl ⟨h1, by show (30 : Nat) ≤ 90; decide, by simp⟩
      · cases h4
  | progressWrite j p hp stage =>
      rcases hI with ⟨h1, h2, h3⟩ | ⟨h1, h2, h3, h4⟩
      · refine Or.inl ⟨h1, ?_, h3⟩
        have hdiv : 3 * p / 5 ≤ 60 := by
          have h300 : 3 * p ≤ 300 := by omega
          calc 3 * p / 5 ≤ 300 / 5 := Nat.div_le_div_right h300
            _ = 60 := rfl
        show 30 + 3 * p / 5 ≤ 90
        omega
      · cases h4
  | transcribeFail j msg =>
      rcases hI with ⟨h1, h2, h3⟩ | ⟨h1, h2, h3, h4⟩
      · exact Or.inl ⟨h1, h2, by simp [failJob]⟩
      · cases h4
  | markFinalizing j =>
      rcases hI with ⟨h1, h2, h3⟩ | ⟨h1, h2, h3, h4⟩
      · exact Or.inl ⟨h1, by show (90 : Nat) ≤ 90; decide, h3⟩
      · cases h4
  | consumeCredits j =>
      rcases hI with ⟨h1, h2, h3⟩ | ⟨h1, h2, h3, h4⟩
      · exact Or.inl ⟨h1, h2, h3⟩
      · cases h4
  | markCompleted j segs =>
      exact Or.inr ⟨rfl, by simp, rfl, rfl⟩
  | cancel pc j h =>
      rcases hI with ⟨h1, h2, h3⟩ | ⟨h1, h2, h3, h4⟩
      · exact Or.inl ⟨h1, h2, by simp⟩
      · rw [h1] at h
        cases h

theorem statusInv_reachable {s : MState} (h : ReachableM s) : statusInv s := by
  induction h with
  | init uid => exact Or.inl ⟨rfl, by simp [initialJob], by simp [initialJob]⟩
  | step _ hs ih => exact statusInv_step ih hs

/-- C5: in every reachable job state, the status is 'completed' if and only
if the transcript is non-null and the progress is 100. -/
theorem completed_iff_transcript_and_progress {s : MState} (h : ReachableM s) :
    s.job.status = JobStatus.completed ↔
      (s.job.transcriptData ≠ none ∧ s.job.progress = 100) := by
  rcases statusInv_reachable h with ⟨h1, h2, h3⟩ | ⟨h1, h2, h3, _⟩
  · constructor
    · intro hc
      exact absurd hc h3
    · rintro ⟨ha, _⟩
      exact absurd h1 ha
  · constructor
    · intro _
      exact ⟨h2, h3⟩
    · intro _
      exact h1

/-- C5 witness: the freshly submitted job state is reachable and satisfies
the equivalence (both sides false: pending status, null transcript). -/
theorem completed_iff_transcript_and_progress_witness :
    ((MState.mk Pc.idle (initialJob 1)).job.status = JobStatus.completed ↔
      ((MState.mk Pc.idle (initialJob 1)).job.transcriptData ≠ none ∧
       (MState.mk Pc.idle (initialJob 1)).job.progress = 100)) :=
  completed_iff_transcript_and_progress (ReachableM.init 1)

/-! ## Speech-to-text client (`lib/gemini-transcription-client.ts`) -/

/-- `MAX_INLINE_SIZE_BYTES = 20 * 1024 * 1024` (line 30). -/
def MAX_INLINE_SIZE_BYTES : Nat := 20 * 1024 * 1024

/-- `MAX_RETRIES = 3` (line 31). -/
def MAX_RETRIES : Nat := 3

/-- `INITIAL_RETRY_DELAY_MS = 1000` (line 32). -/
def INITIAL_RETRY_DELAY_MS : Nat := 1000

/-- `TRANSCRIPTION_MODELS` (lines 21-25), primary first. -/
def TRANSCRIPTION_MODELS : List String :=
  ["gemini-3-flash-preview", "gemini-2.5-flash-lite", "gemini-3-pro-preview"]

/-- How the audio payload is transferred to the provider. -/
inductive TransferStrategy where
  | inlineBase64
  | filesApi
deriving DecidableEq, Repr

/-- `transcribeAudio` line 514: `useFilesApi = audioFile.size > MAX_INLINE_SIZE_BYTES`,
then lines 518-522 upload via the Files API or prepare inline base64. -/
def chooseTransferStrategy (size : Nat) : TransferStrategy :=
  if size > MAX_INLINE_SIZE_BYTES then TransferStrategy.filesApi
  else TransferStrategy.inlineBase64

/-- Outcome of a single `executeTranscription` attempt: success carries the
result, failure records whether `isRetryableError` classifies the error as
retryable (503/429/500/overload/rate limit/quota). Results and errors are
identified by opaque ids. -/
inductive AttemptOutcome where
  | success (resultId : Nat)
  | failure (retryable : Bool) (errId : Nat)
deriving DecidableEq, Repr

/-- What one model's inner retry loop did: possible result, the errors
encountered in order, the number of attempts made, and the backoff delays
slept (ms). -/
structure ModelRun where
  result : Option Nat
  errors : List Nat
  attempts : Nat
  delays : List Nat
deriving DecidableEq, Repr

/-- Inner loop of `transcribeAudio` (lines 538-566) for one model, starting
at the given attempt index with the given remaining attempts: success
returns; a retryable error sleeps `INITIAL_RETRY_DELAY_MS * 2 ^ attempt`
and continues; a non-retryable error stops this model at once. -/
def runModelFrom (f : Nat → AttemptOutcome) : Nat → Nat → ModelRun
  | _, 0 => { result := none, errors := [], attempts := 0, delays := [] }
  | attempt, remaining + 1 =>
      match f attempt with
      | AttemptOutcome.success res =>
          { result := some res, errors := [], attempts := 1, delays := [] }
      | AttemptOutcome.failure retryable e =>
          if retryable then
            let rest := runModelFrom f (attempt + 1) remaining
            { result := rest.result, errors := e :: rest.errors,
              attempts := rest.attempts + 1,
              delays := (INITIAL_RETRY_DELAY_MS * 2 ^ attempt) :: rest.delays }
          else
            { result := none, errors := [e], attempts := 1, delays := [] }

/-- One model's full retry loop: up to `MAX_RETRIES` attempts. -/
def runModel (f : Nat → AttemptOutcome) : ModelRun :=
  runModelFrom f 0 MAX_RETRIES

/-- Outer cascade loop (lines 537-569), threading the `lastError` variable:
returns the first model's success, or — after exhausting every model — an
error carrying the last error encountered (`none` only if no model ever
produced one). Also returns the per-model runs in the order attempted. -/
def transcribeCascadeGo (g : String → Nat → AttemptOutcome) :
    List String → Option Nat → Except (Option Nat) Nat × List (String × ModelRun)
  | [], lastErr => (Except.error lastErr, [])
  | mname :: rest, lastErr =>
      let run := runModel (g mname)
      match run.result with
      | some res => (Except.ok res, [(mname, run)])
      | none =>
          let nextLast := (run.errors.getLast?).elim lastErr some
          let r := transcribeCascadeGo g rest nextLast
          (r.1, (mname, run) :: r.2)

/-- `transcribeAudio`'s model cascade over a model list (`lastError`
initially null; line 569 throws it when every model is exhausted). -/
def transcribeCascade (g : String → Nat → AttemptOutcome) (models : List String) :
    Except (Option Nat) Nat × List (String × ModelRun) :=
  transcribeCascadeGo g models none

/-- C8 (claim as stated, refuted): a payload of exactly
`MAX_INLINE_SIZE_BYTES` (20 MB) is sent inline, because the code tests
`size > MAX_INLINE_SIZE_BYTES` strictly — the spec's "at or above the
threshold are uploaded" fails at the boundary. -/
theorem transfer_at_threshold_counterexample :
    chooseTransferStrategy 20971520 = TransferStrategy.inlineBase64 ∧
    MAX_INLINE_SIZE_BYTES = 20971520 ∧
    ¬ (∀ size : Nat, MAX_INLINE_SIZE_BYTES ≤ size →
        chooseTransferStrategy size = TransferStrategy.filesApi) := by
  refine ⟨by decide, by decide, fun h => ?_⟩
  have := h 20971520 (by decide)
  simp [chooseTransferStrategy, MAX_INLINE_SIZE_BYTES] at this

/-- C8 (amended): the transfer strategy is decided by a strict comparison —
payloads of size at most 20 MB (the threshold included) are sent inline
base64, and only payloads strictly larger than 20 MB go through the
staging/Files API. -/
theorem transfer_strategy_strict_threshold (size : Nat) :
    (chooseTransferStrategy size = TransferStrategy.filesApi ↔
      MAX_INLINE_SIZE_BYTES < size) ∧
    (chooseTransferStrategy size = TransferStrategy.inlineBase64 ↔
      size ≤ MAX_INLINE_SIZE_BYTES) := by
  by_cases h : MAX_INLINE_SIZE_BYTES < size
  all_goals constructor <;> simp [chooseTransferStrategy, h] <;> omega

/-- A model that fails retryably on every attempt is retried with
exponential backoff (1000, 2000, 4000 ms) and gives up after exactly
`MAX_RETRIES = 3` attempts. -/
theorem runModel_all_retryable (f : Nat → AttemptOutcome) (e : Nat)
    (h : ∀ n, f n = AttemptOutcome.failure true e) :
    runModel f =
      { result := none, errors := [e, e, e], attempts := 3,
        delays := [1000, 2000, 4000] } := by
  simp [runModel, MAX_RETRIES, runModelFrom, h, INITIAL_RETRY_DELAY_MS]

/-- A model that succeeds on its first attempt is attempted exactly once. -/
theorem runModel_first_success (f : Nat → AttemptOutcome) (r : Nat)
    (h : f 0 = AttemptOutcome.success r) :
    runModel f = { result := some r, errors := [], attempts := 1, delays := [] } := by
  simp [runModel, MAX_RETRIES, runModelFrom, h]

/-- A model whose first attempt fails non-retryably is abandoned immediately
(one attempt, no backoff sleep). -/
theorem runModel_nonretryable (f : Nat → AttemptOutcome) (e : Nat)
    (h : f 0 = AttemptOutcome.failure false e) :
    runModel f = { result := none, errors := [e], attempts := 1, delays := [] } := by
  simp [runModel, MAX_RETRIES, runModelFrom, h]

/-- When the cascade ends in an error, every model in the list was attempted,
in order. -/
theorem transcribeCascadeGo_error_covers (g : String → Nat → AttemptOutcome)
    (models : List String) :
    ∀ (acc lastE : Option Nat),
      (transcribeCascadeGo g models acc).1 = Except.error lastE →
      (transcribeCascadeGo g models acc).2.map Prod.fst = models := by
  induction models with
  | nil => intro acc lastE _; rfl
  | cons m rest ih =>
      intro acc lastE h
      cases hr : (runModel (g m)).result with
      | some res => simp [transcribeCascadeGo, hr] at h
      | none =>
          simp only [transcribeCascadeGo, hr] at h ⊢
          simp only [List.map_cons, List.cons.injEq, true_and]
          exact ih _ _ h

/-- C6: the model cascade tries models in order; a model failing retryably
on every attempt is retried with exponential backoff exactly
`MAX_RETRIES = 3` times before the cascade advances, after which a model
succeeding on its first attempt yields the cascade's result; a model whose
error is non-retryable is abandoned after a single attempt; and the cascade
errors only after attempting every model, surfacing the last error
encountered. -/
theorem transcribe_cascade_spec :
    (∀ (g : String → Nat → AttemptOutcome) (mA mB : String) (rB eA : Nat),
      (∀ n, g mA n = AttemptOutcome.failure true eA) →
      g mB 0 = AttemptOutcome.success rB →
      transcribeCascade g [mA, mB] =
        (Except.ok rB,
         [(mA, { result := none, errors := [eA, eA, eA], attempts := 3,
                 delays := [1000, 2000, 4000] }),
          (mB, { result := some rB, errors := [], attempts := 1, delays := [] })])) ∧
    (∀ (f : Nat → AttemptOutcome) (e : Nat),
      f 0 = AttemptOutcome.failure false e →
      runModel f = { result := none, errors := [e], attempts := 1, delays := [] }) ∧
    (∀ (g : String → Nat → AttemptOutcome) (mA mB : String) (eA eB : Nat),
      (∀ n, g mA n = AttemptOutcome.failure true eA) →
      g mB 0 = AttemptOutcome.failure false eB →
      transcribeCascade g [mA, mB] =
        (Except.error (some eB),
         [(mA, { result := none, errors := [eA, eA, eA], attempts := 3,
                 delays := [1000, 2000, 4000] }),
          (mB, { result := none, errors := [eB], attempts := 1, delays := [] })])) ∧
    (∀ (g : String → Nat → AttemptOutcome) (models : List String) (lastE : Option Nat),
      (transcribeCascade g models).1 = Except.error lastE →
      (transcribeCascade g models).2.map Prod.fst = models) := by
  refine ⟨?_, ?_, ?_, ?_⟩
  · intro g mA mB rB eA hA hB
    have hA' := runModel_all_retryable (g mA) eA hA
    have hB' := runModel_first_success (g mB) rB hB
    simp [transcribeCascade, transcribeCascadeGo, hA', hB']
  · intro f e h
    exact runModel_nonretryable f e h
  · intro g mA mB eA eB hA hB
    have hA' := runModel_all_retryable (g mA) eA hA
    have hB' := runModel_nonretryable (g mB) eB hB
    simp [transcribeCascade, transcribeCascadeGo, hA', hB']
  · intro g models lastE h
    exact transcribeCascadeGo_error_covers g models none lastE h

/-- Concrete oracle for the C6 witness: "modelA" always fails retryably with
error 11, every other model succeeds with result 5 on any attempt. -/
def witnessOracle : String → Nat → AttemptOutcome :=
  fun name _ =>
    if name == "modelA" then AttemptOutcome.failure true 11
    else AttemptOutcome.success 5

/-- C6 witness: on `witnessOracle`, the cascade attempts modelA exactly 3
times with backoff 1000/2000/4000 ms and then returns modelB's first-attempt
result. -/
theorem transcribe_cascade_spec_witness :
    transcribeCascade witnessOracle ["modelA", "modelB"] =
      (Except.ok 5,
       [("modelA", { result := none, errors := [11, 11, 11], attempts := 3,
                     delays := [1000, 2000, 4000] }),
        ("modelB", { result := some 5, errors := [], attempts := 1, delays := [] })]) :=
  transcribe_cascade_spec.1 witnessOracle "modelA" "modelB" 5 11
    (fun _ => rfl) (by decide)

end Longcut
